import Mathlib

/-!
Shallow embedding of `src/Filter/test-performance-python.py` (the
PocketFence filter performance harness) together with theorems checking
the specification's claims about it.

Each definition carries a comment naming the source construct it embeds.
External effects (subprocess launches, HTTP probes, wall-clock time, the
psutil sampler) are modelled by explicit oracles passed as arguments, so
every definition is executable on concrete inputs.
-/

/-! ## Python substring containment (`pat in s` on strings) -/

/-- Scanning helper for substring containment: `leadsWith p s` holds when
`p` occurs at the very head of `s`. -/
def leadsWith : List Char → List Char → Bool
  | [], _ => true
  | _ :: _, [] => false
  | a :: as, b :: bs => a == b && leadsWith as bs

/-- Python's `pat in s` for strings, on the underlying character lists:
`occursIn p s` holds when `p` occurs contiguously somewhere in `s`. -/
def occursIn (pat : List Char) : List Char → Bool
  | [] => leadsWith pat []
  | b :: rest => leadsWith pat (b :: rest) || occursIn pat rest

/-- Python's `pat in s` lifted to `String`. -/
def str_contains (s pat : String) : Bool := occursIn pat.data s.data

theorem leadsWith_iff (p : List Char) :
    ∀ s, leadsWith p s = true ↔ ∃ t, p ++ t = s := by
  induction p with
  | nil => intro s; simp [leadsWith]
  | cons a as ih =>
    intro s
    cases s with
    | nil =>
      simp [leadsWith]
    | cons b bs =>
      simp only [leadsWith, Bool.and_eq_true, beq_iff_eq, ih bs]
      constructor
      · rintro ⟨hab, t, ht⟩
        exact ⟨t, by simp [hab, ht]⟩
      · rintro ⟨t, ht⟩
        rw [List.cons_append, List.cons.injEq] at ht
        exact ⟨ht.1, t, ht.2⟩

theorem occursIn_iff (p : List Char) :
    ∀ s, occursIn p s = true ↔ ∃ u v, u ++ p ++ v = s := by
  intro s
  induction s with
  | nil =>
    simp only [occursIn, leadsWith_iff]
    constructor
    · rintro ⟨t, ht⟩
      exact ⟨[], t, by simpa using ht⟩
    · rintro ⟨u, v, huv⟩
      rcases List.append_eq_nil.1 huv with ⟨h1, h2⟩
      rcases List.append_eq_nil.1 h1 with ⟨h3, h4⟩
      exact ⟨[], by simp [h4]⟩
  | cons b bs ih =>
    simp only [occursIn, Bool.or_eq_true, leadsWith_iff, ih]
    constructor
    · rintro (⟨t, ht⟩ | ⟨u, v, huv⟩)
      · exact ⟨[], t, by simpa using ht⟩
      · exact ⟨b :: u, v, by simp [huv]⟩
    · rintro ⟨u, v, huv⟩
      cases u with
      | nil =>
        exact Or.inl ⟨v, by simpa using huv⟩
      | cons c cs =>
        rw [List.cons_append, List.cons_append, List.cons.injEq] at huv
        exact Or.inr ⟨cs, v, by simpa using huv.2⟩

/-! ## Blocked/Allowed/Failed classification (lines 283-292 and 329-353) -/

/-- Product marker tested in the blocked check (lines 285, 337). -/
def product_marker : String := "PocketFence"

/-- Block-indicator marker tested in the blocked check (lines 285, 337). -/
def block_marker : String := "Content Blocked"

/-- `is_blocked` (lines 285 and 337): the response body contains both the
product marker and the block marker. -/
def is_blocked (body : String) : Bool :=
  str_contains body product_marker && str_contains body block_marker

/-- Classification of one probe, per the spec's ProbeOutcome vocabulary. -/
inductive Classification
  | Blocked
  | Allowed
  | Failed
deriving DecidableEq

/-- Classification of a probe result: `none` models a
`requests.RequestException` (connect error or timeout), `some body` a
completed response with body `body`. A completed response is Blocked iff
`is_blocked`, otherwise Allowed; a network-level failure is Failed. -/
def classify : Option String → Classification
  | none => Classification.Failed
  | some body =>
    if is_blocked body then Classification.Blocked else Classification.Allowed

/-! ## Score and grade (`calculate_performance_grade`, lines 413-450) -/

/-- The five entries of `self.test_results` that
`calculate_performance_grade` reads; `none` models an absent dict key.
The dict holds further keys, but the grade reads only these. -/
structure TestResults where
  avg_startup_time : Option ℚ
  avg_memory_mb : Option ℚ
  requests_per_second : Option ℚ
  filter_accuracy : Option ℚ
  concurrent_success_rate : Option ℚ
deriving DecidableEq

/-- `calculate_performance_grade` (lines 413-450): accumulates the score
through the five `if key in self.test_results and value <op> threshold`
checks, then derives the letter grade from the score bands. -/
def calculate_performance_grade (r : TestResults) : Nat × String :=
  let score0 : Nat := 0
  let score1 := match r.avg_startup_time with
    | some v => if v < 2000 then score0 + 15 else score0
    | none => score0
  let score2 := match r.avg_memory_mb with
    | some v => if v < 50 then score1 + 20 else score1
    | none => score1
  let score3 := match r.requests_per_second with
    | some v => if 10 < v then score2 + 20 else score2
    | none => score2
  let score4 := match r.filter_accuracy with
    | some v => if 80 < v then score3 + 25 else score3
    | none => score3
  let score := match r.concurrent_success_rate with
    | some v => if 90 < v then score4 + 20 else score4
    | none => score4
  let grade :=
    if 90 ≤ score then "A+"
    else if 80 ≤ score then "A"
    else if 70 ≤ score then "B"
    else if 60 ≤ score then "C"
    else if 50 ≤ score then "D"
    else "F"
  (score, grade)

/-- Spec-side contribution of the startup metric: 15 points when present
and < 2000 ms, else 0. -/
def startup_points (r : TestResults) : Nat :=
  match r.avg_startup_time with
  | some v => if v < 2000 then 15 else 0
  | none => 0

/-- Spec-side contribution of the memory metric: 20 points when present
and < 50 MB, else 0. -/
def memory_points (r : TestResults) : Nat :=
  match r.avg_memory_mb with
  | some v => if v < 50 then 20 else 0
  | none => 0

/-- Spec-side contribution of the throughput metric: 20 points when
present and > 10 req/s, else 0. -/
def throughput_points (r : TestResults) : Nat :=
  match r.requests_per_second with
  | some v => if 10 < v then 20 else 0
  | none => 0

/-- Spec-side contribution of the accuracy metric: 25 points when present
and > 80 %, else 0. -/
def accuracy_points (r : TestResults) : Nat :=
  match r.filter_accuracy with
  | some v => if 80 < v then 25 else 0
  | none => 0

/-- Spec-side contribution of the concurrency metric: 20 points when
present and > 90 % success, else 0. -/
def concurrent_points (r : TestResults) : Nat :=
  match r.concurrent_success_rate with
  | some v => if 90 < v then 20 else 0
  | none => 0

/-- Spec-side score: the sum of the five metric contributions. -/
def specScore (r : TestResults) : Nat :=
  startup_points r + memory_points r + throughput_points r +
    accuracy_points r + concurrent_points r

/-- Spec-side letter grade from the fixed score bands. -/
def specGrade (s : Nat) : String :=
  if 90 ≤ s then "A+"
  else if 80 ≤ s then "A"
  else if 70 ≤ s then "B"
  else if 60 ≤ s then "C"
  else if 50 ≤ s then "D"
  else "F"

theorem performance_score_eq (r : TestResults) :
    (calculate_performance_grade r).1 = specScore r := by
  obtain ⟨a, m, t, f, c⟩ := r
  cases a <;> cases m <;> cases t <;> cases f <;> cases c <;>
    simp only [calculate_performance_grade, specScore, startup_points, memory_points,
      throughput_points, accuracy_points, concurrent_points] <;>
    split_ifs <;> omega

theorem performance_grade_band (r : TestResults) :
    (calculate_performance_grade r).2 = specGrade ((calculate_performance_grade r).1) := by
  obtain ⟨a, m, t, f, c⟩ := r
  rfl

theorem calculate_performance_grade_eq (r : TestResults) :
    calculate_performance_grade r = (specScore r, specGrade (specScore r)) := by
  have h1 := performance_score_eq r
  have h2 := performance_grade_band r
  rw [h1] at h2
  exact Prod.ext h1 h2

/-! ## Metric indexing, for the monotonicity claim about the score -/

/-- One of the five scored metrics. -/
inductive MetricKey
  | startup
  | memory
  | throughput
  | accuracy
  | concurrency
deriving DecidableEq

/-- The `test_results` entry a metric key reads. -/
def getMetric (r : TestResults) : MetricKey → Option ℚ
  | MetricKey.startup => r.avg_startup_time
  | MetricKey.memory => r.avg_memory_mb
  | MetricKey.throughput => r.requests_per_second
  | MetricKey.accuracy => r.filter_accuracy
  | MetricKey.concurrency => r.concurrent_success_rate

/-- Replace a single metric entry, holding the other four fixed. -/
def setMetric (r : TestResults) : MetricKey → Option ℚ → TestResults
  | MetricKey.startup, v => { r with avg_startup_time := v }
  | MetricKey.memory, v => { r with avg_memory_mb := v }
  | MetricKey.throughput, v => { r with requests_per_second := v }
  | MetricKey.accuracy, v => { r with filter_accuracy := v }
  | MetricKey.concurrency, v => { r with concurrent_success_rate := v }

/-- Whether a metric value passes its scoring threshold (a missing metric
never passes). -/
def metricPasses : MetricKey → Option ℚ → Bool
  | MetricKey.startup, some v => decide (v < 2000)
  | MetricKey.memory, some v => decide (v < 50)
  | MetricKey.throughput, some v => decide (10 < v)
  | MetricKey.accuracy, some v => decide (80 < v)
  | MetricKey.concurrency, some v => decide (90 < v)
  | _, none => false

/-- The points a metric is worth when it passes its threshold. -/
def metricPoints : MetricKey → Nat
  | MetricKey.startup => 15
  | MetricKey.memory => 20
  | MetricKey.throughput => 20
  | MetricKey.accuracy => 25
  | MetricKey.concurrency => 20

theorem startup_points_char (r : TestResults) :
    startup_points r =
      if metricPasses MetricKey.startup r.avg_startup_time then 15 else 0 := by
  cases h : r.avg_startup_time <;> simp [startup_points, metricPasses, h]

theorem memory_points_char (r : TestResults) :
    memory_points r =
      if metricPasses MetricKey.memory r.avg_memory_mb then 20 else 0 := by
  cases h : r.avg_memory_mb <;> simp [memory_points, metricPasses, h]

theorem throughput_points_char (r : TestResults) :
    throughput_points r =
      if metricPasses MetricKey.throughput r.requests_per_second then 20 else 0 := by
  cases h : r.requests_per_second <;> simp [throughput_points, metricPasses, h]

theorem accuracy_points_char (r : TestResults) :
    accuracy_points r =
      if metricPasses MetricKey.accuracy r.filter_accuracy then 25 else 0 := by
  cases h : r.filter_accuracy <;> simp [accuracy_points, metricPasses, h]

theorem concurrent_points_char (r : TestResults) :
    concurrent_points r =
      if metricPasses MetricKey.concurrency r.concurrent_success_rate then 20 else 0 := by
  cases h : r.concurrent_success_rate <;> simp [concurrent_points, metricPasses, h]

theorem specScore_mono_in_metric (r : TestResults) (m : MetricKey) (v : Option ℚ)
    (hfail : metricPasses m (getMetric r m) = false)
    (hpass : metricPasses m v = true) :
    specScore r ≤ specScore (setMetric r m v) := by
  cases m <;>
    simp only [specScore, setMetric, getMetric] at * <;>
    simp only [startup_points_char, memory_points_char, throughput_points_char,
      accuracy_points_char, concurrent_points_char] at * <;>
    simp_all

/-! ## Process supervision (`start_filter` lines 120-143, `stop_filter` lines 145-155) -/

/-- Supervisor state: `filter_process` mirrors `self.filter_process`
(`none` = no live handle); `terminated` records, in order, the pids whose
processes have been terminated. -/
structure SupervisorState where
  filter_process : Option Nat
  terminated : List Nat
deriving DecidableEq

/-- `stop_filter` (lines 145-155): if a process handle is live, terminate
it (kill on grace timeout - both paths end the process exactly once) and
clear the handle in the `finally`; otherwise do nothing. Total function:
no exception escapes. -/
def stop_filter (s : SupervisorState) : SupervisorState :=
  match s.filter_process with
  | none => s
  | some pid => { filter_process := none, terminated := s.terminated ++ [pid] }

/-- The two failures `start_filter` can raise: `FileNotFoundError`
before `Popen` runs, `RuntimeError` after the readiness poll times out. -/
inductive StartError
  | ExecutableNotFound
  | StartupTimeout
deriving DecidableEq

/-- `start_filter` (lines 120-143): when the executable is found, `Popen`
sets `self.filter_process` (modelled by `pid`); the readiness poll then
either succeeds or raises `RuntimeError` with the handle still set. When
the executable is missing, `FileNotFoundError` is raised before any
process exists. Returns the new state and the raised error, if any. -/
def start_filter (exe_found becomes_ready : Bool) (pid : Nat) (s : SupervisorState) :
    SupervisorState × Option StartError :=
  if exe_found then
    let s1 : SupervisorState := { s with filter_process := some pid }
    if becomes_ready then (s1, none) else (s1, some StartError.StartupTimeout)
  else (s, some StartError.ExecutableNotFound)

/-- The `try: self.start_filter() ... finally: self.stop_filter()` shape
shared by the memory, throughput, accuracy and concurrency phases (lines
217-250, 252-314, 316-367, 369-411): the phase body never touches the
supervisor state, and `stop_filter` runs on every exit path. The returned
Bool is whether the phase raised (a failed start or a raising body). -/
def run_phase (exe_found becomes_ready body_raises : Bool) (pid : Nat)
    (s : SupervisorState) : SupervisorState × Bool :=
  let r := start_filter exe_found becomes_ready pid s
  match r.2 with
  | some _ => (stop_filter r.1, true)
  | none => (stop_filter r.1, body_raises)

/-! ## Startup phase (`measure_startup_performance`, lines 157-215) -/

/-- Accumulator for the five startup cycles: the recorded startup times
(`startup_times`), how many `Popen` launches happened and how many
terminations (the per-cycle clean-shutdown block) ran. -/
structure StartupOutcome where
  startup_times : List ℚ
  launches : Nat
  terminations : Nat
deriving DecidableEq

/-- One startup cycle (lines 168-207): `Popen` the filter, poll readiness
for up to 10 s (`ready i = some t` means the probe succeeded after `t`
ms, `none` means the 10-second budget elapsed), record the time only on
success (a timeout appends nothing), then terminate the process exactly
once in the clean-shutdown block. -/
def startup_cycle (ready : Nat → Option ℚ) (acc : StartupOutcome) (i : Nat) :
    StartupOutcome :=
  let acc1 := { acc with launches := acc.launches + 1 }
  let acc2 := match ready i with
    | some t => { acc1 with startup_times := acc1.startup_times ++ [t] }
    | none => acc1
  { acc2 with terminations := acc2.terminations + 1 }

/-- `statistics.mean` on rationals. -/
def qmean (l : List ℚ) : ℚ := l.sum / l.length

/-- Python `min` on a list of rationals (0 for the empty list, which the
source never evaluates). -/
def qmin : List ℚ → ℚ
  | [] => 0
  | x :: xs => xs.foldl min x

/-- Python `max` on a list of rationals (0 for the empty list, which the
source never evaluates). -/
def qmax : List ℚ → ℚ
  | [] => 0
  | x :: xs => xs.foldl max x

/-- `measure_startup_performance` (lines 157-215): return early with no
metrics when the executable is missing; otherwise run five cycles and
record mean/min/max only when at least one cycle succeeded (`if
startup_times:`). The phase raises nothing in this model - per-cycle
probe errors are swallowed by the bare `except`. -/
def measure_startup_performance (exe_found : Bool) (ready : Nat → Option ℚ) :
    StartupOutcome × Option (ℚ × ℚ × ℚ) :=
  if exe_found then
    let o := [1, 2, 3, 4, 5].foldl (startup_cycle ready) ⟨[], 0, 0⟩
    (o, if o.startup_times = [] then none
        else some (qmean o.startup_times, qmin o.startup_times, qmax o.startup_times))
  else (⟨[], 0, 0⟩, none)

theorem startup_cycle_balance (ready : Nat → Option ℚ) :
    ∀ (l : List Nat) (acc : StartupOutcome),
      acc.terminations = acc.launches →
      (l.foldl (startup_cycle ready) acc).terminations
        = (l.foldl (startup_cycle ready) acc).launches := by
  intro l
  induction l with
  | nil => intro acc h; exact h
  | cons i rest ih =>
    intro acc h
    have hc : (startup_cycle ready acc i).launches = acc.launches + 1 ∧
        (startup_cycle ready acc i).terminations = acc.terminations + 1 := by
      cases hr : ready i <;> simp [startup_cycle, hr]
    simp only [List.foldl_cons]
    exact ih (startup_cycle ready acc i) (by omega)

theorem measure_startup_balanced (exe_found : Bool) (ready : Nat → Option ℚ) :
    (measure_startup_performance exe_found ready).1.terminations
      = (measure_startup_performance exe_found ready).1.launches := by
  cases exe_found with
  | false => rfl
  | true =>
    simp only [measure_startup_performance, if_true]
    exact startup_cycle_balance ready [1, 2, 3, 4, 5] ⟨[], 0, 0⟩ rfl

/-! ## Throughput phase (`measure_filtering_performance`, lines 252-314) -/

/-- Loop state of the throughput phase: wall-clock `now` (ms), the index
of the next request to issue (feeding the probe oracle), and the
accumulators `request_count`, `blocked_count`, `response_times`. -/
structure ThroughputState where
  now : Nat
  idx : Nat
  request_count : Nat
  blocked_count : Nat
  response_times : List Nat
deriving DecidableEq

/-- One probe of the throughput loop body (lines 271-292): issue
request number `s.idx` at `url`. The oracle `probe` answers with the
response body, or `none` for a `requests.RequestException`; `pt` gives
the wall-clock the request consumes (positive: a blocking network call
takes time). On success the elapsed time is appended and the blocked
check `is_blocked` may bump `blocked_count`; on failure the request is
still counted (`request_count += 1  # Count failed requests`) but neither
blocked nor timed. -/
def throughputStep (probe : Nat → String → Option String)
    (pt : Nat → {n : Nat // 0 < n}) (url : String) (s : ThroughputState) :
    ThroughputState :=
  let rt := (pt s.idx).1
  match probe s.idx url with
  | some body =>
    { now := s.now + rt, idx := s.idx + 1, request_count := s.request_count + 1,
      blocked_count := if is_blocked body then s.blocked_count + 1 else s.blocked_count,
      response_times := s.response_times ++ [rt] }
  | none =>
    { now := s.now + rt, idx := s.idx + 1, request_count := s.request_count + 1,
      blocked_count := s.blocked_count, response_times := s.response_times }

/-- `self.test_urls` (lines 36-45). -/
def test_urls : List String :=
  [ "http://example.com",
    "http://educational.site.com",
    "http://badsite-violence.com",
    "http://adult-content.com",
    "http://malware.site.com",
    "http://safe-learning.edu",
    "http://gambling-casino.com",
    "http://social-media.com" ]

/-- The inner `for url in self.test_urls` loop (lines 270-292): one probe
per url, with the `if time.time() >= end_time: break` deadline check
after each probe. -/
def urlPass (end_time : Nat) (probe : Nat → String → Option String)
    (pt : Nat → {n : Nat // 0 < n}) :
    List String → ThroughputState → ThroughputState
  | [], s => s
  | url :: rest, s =>
    let s1 := throughputStep probe pt url s
    if end_time ≤ s1.now then s1 else urlPass end_time probe pt rest s1

theorem throughputStep_now_lt (probe : Nat → String → Option String)
    (pt : Nat → {n : Nat // 0 < n}) (url : String) (s : ThroughputState) :
    s.now < (throughputStep probe pt url s).now := by
  cases hp : probe s.idx url <;>
    simp [throughputStep, hp, Nat.lt_add_of_pos_right (pt s.idx).2]

theorem urlPass_now_le (end_time : Nat) (probe : Nat → String → Option String)
    (pt : Nat → {n : Nat // 0 < n}) :
    ∀ (l : List String) (s : ThroughputState),
      s.now ≤ (urlPass end_time probe pt l s).now := by
  intro l
  induction l with
  | nil => intro s; exact Nat.le_refl _
  | cons url rest ih =>
    intro s
    have h1 := throughputStep_now_lt probe pt url s
    simp only [urlPass]
    split
    · exact Nat.le_of_lt h1
    · exact Nat.le_of_lt (Nat.lt_of_lt_of_le h1 (ih _))

theorem urlPass_cons_now_lt (end_time : Nat) (probe : Nat → String → Option String)
    (pt : Nat → {n : Nat // 0 < n}) (url : String) (rest : List String)
    (s : ThroughputState) :
    s.now < (urlPass end_time probe pt (url :: rest) s).now := by
  have h1 := throughputStep_now_lt probe pt url s
  simp only [urlPass]
  split
  · exact h1
  · exact Nat.lt_of_lt_of_le h1 (urlPass_now_le end_time probe pt rest _)

theorem urlPass_test_urls_now_lt (end_time : Nat)
    (probe : Nat → String → Option String) (pt : Nat → {n : Nat // 0 < n})
    (s : ThroughputState) :
    s.now < (urlPass end_time probe pt test_urls s).now := by
  simp only [test_urls]
  exact urlPass_cons_now_lt end_time probe pt _ _ s

/-- The `while time.time() < end_time` loop (lines 269-292): keep doing
passes over `test_urls` while the deadline has not been reached.
Terminates because each pass issues at least one probe, and probes take
positive time. -/
def throughputWhile (end_time : Nat) (probe : Nat → String → Option String)
    (pt : Nat → {n : Nat // 0 < n}) (s : ThroughputState) : ThroughputState :=
  if h : s.now < end_time then
    throughputWhile end_time probe pt (urlPass end_time probe pt test_urls s)
  else s
termination_by end_time - s.now
decreasing_by
  exact Nat.sub_lt_sub_left h (urlPass_test_urls_now_lt end_time probe pt s)

/-- `blocked_count / request_count * 100 if request_count > 0 else 0`
(line 299). -/
def block_rate_calc (blocked total : Nat) : ℚ :=
  if 0 < total then ((blocked : ℚ) / (total : ℚ)) * 100 else 0

/-- The result entries the throughput phase writes (lines 296-304). -/
structure ThroughputResults where
  requests_per_second : ℚ
  total_requests : Nat
  blocked_requests : Nat
  block_rate : ℚ
  response_stats : Option (ℚ × ℚ × ℚ)
deriving DecidableEq

/-- `measure_filtering_performance` (lines 252-314): run the timed loop
from `t0` for `test_duration`, then derive the aggregate entries.
`requests_per_second` divides by the elapsed wall-clock (Lean's total
division returns 0 for the 0/0 case that real time keeps the source
from hitting); response-time stats are recorded only when some probe
succeeded. -/
def measure_filtering_performance (test_duration : Nat)
    (probe : Nat → String → Option String) (pt : Nat → {n : Nat // 0 < n})
    (t0 : Nat) : ThroughputResults :=
  let end_time := t0 + test_duration
  let final := throughputWhile end_time probe pt ⟨t0, 0, 0, 0, []⟩
  let actual_duration := final.now - t0
  { requests_per_second := (final.request_count : ℚ) / (actual_duration : ℚ)
    total_requests := final.request_count
    blocked_requests := final.blocked_count
    block_rate := block_rate_calc final.blocked_count final.request_count
    response_stats :=
      if final.response_times = [] then none
      else
        some (qmean (final.response_times.map (fun n => (n : ℚ))),
          qmin (final.response_times.map (fun n => (n : ℚ))),
          qmax (final.response_times.map (fun n => (n : ℚ)))) }

/-! ## Accuracy phase (`test_blocking_accuracy`, lines 316-367) -/

/-- One accuracy fixture `(URL, should_block, description)` (lines 47-57). -/
structure TestCase where
  url : String
  should_block : Bool
  description : String
deriving DecidableEq

/-- `self.test_cases` (lines 48-57). -/
def test_cases : List TestCase :=
  [ ⟨"http://education.com", false, "Educational site"⟩,
    ⟨"http://violence-fighting.com", true, "Violence content"⟩,
    ⟨"http://adult-explicit.com", true, "Adult content"⟩,
    ⟨"http://malware-virus.com", true, "Malware site"⟩,
    ⟨"http://school-learning.edu", false, "School site"⟩,
    ⟨"http://gambling-casino.com", true, "Gambling site"⟩,
    ⟨"http://safe-tutorial.com", false, "Tutorial site"⟩,
    ⟨"http://cyberbullying-hate.com", true, "Cyberbullying content"⟩ ]

/-- The four bucket counters of the accuracy phase (lines 324-327). -/
structure AccuracyCounts where
  correct_blocks : Nat
  correct_allows : Nat
  false_positives : Nat
  false_negatives : Nat
deriving DecidableEq

/-- The per-fixture body of the accuracy loop (lines 329-353): when the
probe completes, classify into exactly one of the four buckets via the
if/elif chain; when `requests.get` raises `RequestException`, the
`except` branch only logs ("Request failed") and no counter changes. -/
def accuracy_step (probe : String → Option String) (acc : AccuracyCounts)
    (tc : TestCase) : AccuracyCounts :=
  match probe tc.url with
  | none => acc
  | some body =>
    let isb := is_blocked body
    if tc.should_block && isb then
      { acc with correct_blocks := acc.correct_blocks + 1 }
    else if !tc.should_block && !isb then
      { acc with correct_allows := acc.correct_allows + 1 }
    else if tc.should_block && !isb then
      { acc with false_negatives := acc.false_negatives + 1 }
    else
      { acc with false_positives := acc.false_positives + 1 }

/-- Sum of the four bucket counters. -/
def bucket_sum (acc : AccuracyCounts) : Nat :=
  acc.correct_blocks + acc.correct_allows + acc.false_positives +
    acc.false_negatives

/-- `test_blocking_accuracy` (lines 316-367): iterate the fixtures, then
compute `filter_accuracy = correct_results / total_tests * 100` (guarded
by `if total_tests > 0`), where `total_tests = len(self.test_cases)`
regardless of how many probes completed. -/
def test_blocking_accuracy (probe : String → Option String) :
    AccuracyCounts × ℚ :=
  let c := test_cases.foldl (accuracy_step probe) ⟨0, 0, 0, 0⟩
  let total_tests := test_cases.length
  let correct_results := c.correct_blocks + c.correct_allows
  (c, if 0 < total_tests
      then ((correct_results : ℚ) / (total_tests : ℚ)) * 100 else 0)

theorem accuracy_step_failed (probe : String → Option String)
    (acc : AccuracyCounts) (tc : TestCase) (h : probe tc.url = none) :
    accuracy_step probe acc tc = acc := by
  simp [accuracy_step, h]

theorem accuracy_step_completed (probe : String → Option String)
    (acc : AccuracyCounts) (tc : TestCase) (body : String)
    (h : probe tc.url = some body) :
    bucket_sum (accuracy_step probe acc tc) = bucket_sum acc + 1 := by
  simp only [accuracy_step, h, bucket_sum]
  split_ifs <;> simp <;> omega

theorem bucket_sum_foldl (probe : String → Option String) :
    ∀ (l : List TestCase) (acc : AccuracyCounts),
      bucket_sum (l.foldl (accuracy_step probe) acc)
        = bucket_sum acc
          + (l.filter (fun tc => (probe tc.url).isSome)).length := by
  intro l
  induction l with
  | nil => intro acc; simp
  | cons tc rest ih =>
    intro acc
    simp only [List.foldl_cons, ih (accuracy_step probe acc tc)]
    cases h : probe tc.url with
    | none =>
      rw [accuracy_step_failed probe acc tc h]
      simp [List.filter_cons, h]
    | some body =>
      rw [accuracy_step_completed probe acc tc body h]
      simp only [List.filter_cons, h, Option.isSome_some]
      simp
      omega

/-! ## Concurrency phase and configuration (lines 27-33, 369-411, 564-576) -/

/-- The configuration fields `__init__` (lines 27-33) stores; the values
arrive from `argparse` (`type=int`) unvalidated. -/
structure FilterPerformanceTestConfig where
  test_duration : Int
  concurrent_connections : Int
deriving DecidableEq

/-- `FilterPerformanceTest.__init__` (lines 27-33): store the arguments
as given; no validation is performed. -/
def filter_performance_test_init (test_duration concurrent_connections : Int) :
    FilterPerformanceTestConfig :=
  { test_duration := test_duration,
    concurrent_connections := concurrent_connections }

/-- `main`'s argparse default for `--duration` (line 566). -/
def default_test_duration : Int := 30

/-- `main`'s argparse default for `--connections` (line 567). -/
def default_concurrent_connections : Int := 50

/-- `concurrent_success_rate = successful_requests /
self.concurrent_connections * 100` (line 404). -/
def concurrent_success_rate (successful : Nat)
    (concurrent_connections : Int) : ℚ :=
  ((successful : ℚ) / (concurrent_connections : ℚ)) * 100

/-! ## Orchestration (`run_all_tests`, lines 510-561) -/

/-- The six stages executed inside the single `try` of `run_all_tests`
(lines 525-541), in source order. -/
inductive Phase
  | startup
  | memory
  | throughput
  | accuracy
  | concurrency
  | report
deriving DecidableEq

/-- The source order of the stages inside the `try` (lines 526-541). -/
def phase_order : List Phase :=
  [Phase.startup, Phase.memory, Phase.throughput, Phase.accuracy,
    Phase.concurrency, Phase.report]

/-- The body of the single `try` of `run_all_tests`: run the stages in
order; the first stage whose body raises transfers control to the
`except` (lines 559-561), which logs and returns False, so the remaining
stages never run. Returns the stages that executed (the raising one
included, since it ran until its failure) and the returned Bool. -/
def run_phases_from (raises : Phase → Bool) : List Phase → List Phase × Bool
  | [] => ([], true)
  | p :: rest =>
    if raises p then ([p], false)
    else
      let r := run_phases_from raises rest
      (p :: r.1, r.2)

/-- `run_all_tests` (lines 510-561): when `check_dependencies` fails,
return False before any phase (lines 521-522); otherwise run the stages
inside one `try`/`except`. -/
def run_all_tests (deps_ok : Bool) (raises : Phase → Bool) :
    List Phase × Bool :=
  if deps_ok then run_phases_from raises phase_order else ([], false)

theorem run_phases_from_clean (raises : Phase → Bool) :
    ∀ l : List Phase, (∀ q ∈ l, raises q = false) →
      run_phases_from raises l = (l, true) := by
  intro l
  induction l with
  | nil => intro _; rfl
  | cons p rest ih =>
    intro h
    have hp : raises p = false := h p (List.mem_cons_self p rest)
    simp [run_phases_from, hp, ih fun q hq => h q (List.mem_cons_of_mem p hq)]

theorem run_phases_from_raise (raises : Phase → Bool) :
    ∀ (pre : List Phase) (p : Phase) (rest : List Phase),
      (∀ q ∈ pre, raises q = false) → raises p = true →
      run_phases_from raises (pre ++ p :: rest) = (pre ++ [p], false) := by
  intro pre
  induction pre with
  | nil =>
    intro p rest _ hp
    simp [run_phases_from, hp]
  | cons q pre ih =>
    intro p rest h hp
    have hq : raises q = false := h q (List.mem_cons_self q pre)
    have hih := ih p rest (fun x hx => h x (List.mem_cons_of_mem q hx)) hp
    simp [run_phases_from, hq, hih]

/-! ## Pre-flight dependency check (lines 11-24 and 82-95) -/

/-- Which of the two third-party libraries the Python environment can
import. -/
structure PythonEnv where
  requests_importable : Bool
  psutil_importable : Bool
deriving DecidableEq

/-- The module-level imports (lines 7-24): `import requests` is
unconditional, so the module only loads - and the program only starts -
when requests is importable; the psutil import is wrapped in
`try/except ImportError` and merely sets `HAS_PSUTIL`. -/
def module_import_ok (env : PythonEnv) : Bool := env.requests_importable

/-- `check_dependencies` (lines 82-95): `import requests` inside
`try/except ImportError`, returning False exactly when the import fails;
psutil's absence is only logged and never fails the check. -/
def check_dependencies (env : PythonEnv) : Bool := env.requests_importable

/-! ## Further helper lemmas shared by the claim theorems -/

theorem run_all_tests_startup_mem (raises : Phase → Bool) :
    Phase.startup ∈ (run_all_tests true raises).1 ∧
      (run_all_tests true raises).1 ≠ [] := by
  simp only [run_all_tests, if_true, phase_order, run_phases_from]
  cases h : raises Phase.startup <;> simp [h]

theorem run_all_tests_memory_mem (raises : Phase → Bool)
    (h : raises Phase.startup = false) :
    Phase.memory ∈ (run_all_tests true raises).1 := by
  simp only [run_all_tests, if_true, phase_order, run_phases_from, h]
  cases hm : raises Phase.memory <;> simp [hm, h]

theorem score_without_startup (r : TestResults) :
    (calculate_performance_grade { r with avg_startup_time := none }).1
      = memory_points r + throughput_points r + accuracy_points r +
          concurrent_points r := by
  rw [performance_score_eq]
  have h0 : startup_points { r with avg_startup_time := none } = 0 := rfl
  have h1 : memory_points { r with avg_startup_time := none } = memory_points r := rfl
  have h2 : throughput_points { r with avg_startup_time := none }
      = throughput_points r := rfl
  have h3 : accuracy_points { r with avg_startup_time := none }
      = accuracy_points r := rfl
  have h4 : concurrent_points { r with avg_startup_time := none }
      = concurrent_points r := rfl
  simp only [specScore, h0, h1, h2, h3, h4]
  omega

/-! ## Claim theorems -/

/-- C1, counterexample: with dependencies available and a failure raised
inside the Startup phase (and nowhere else), the Memory phase does not
execute its process start/use/stop cycle, refuting "every subsequent
phase still executes". -/
theorem run_all_tests_phase_failure_cex :
    (fun p => decide (p = Phase.startup)) Phase.startup = true ∧
    (run_all_tests true (fun p => decide (p = Phase.startup))).1
      = [Phase.startup] ∧
    Phase.memory ∉ (run_all_tests true (fun p => decide (p = Phase.startup))).1 := by
  decide

/-- C1, amended: `run_all_tests` wraps all phases in a single try/except,
so a failure raised inside any phase is caught and logged at run level
and makes the run return False, but the phases after the failing one do
not execute; a failed pre-flight dependency check aborts before any
phase; when dependencies pass and no stage raises, all stages execute in
order and the run returns True. -/
theorem run_all_tests_failure_isolation :
    (∀ raises, run_all_tests false raises = ([], false)) ∧
    (∀ raises, (∀ p, raises p = false) →
      run_all_tests true raises = (phase_order, true)) ∧
    (∀ raises pre p rest, phase_order = pre ++ p :: rest →
      (∀ q ∈ pre, raises q = false) → raises p = true →
      run_all_tests true raises = (pre ++ [p], false)) := by
  refine ⟨fun raises => rfl, fun raises h => ?_, fun raises pre p rest hord hpre hp => ?_⟩
  · simp [run_all_tests, run_phases_from_clean raises phase_order (fun q _ => h q)]
  · simp [run_all_tests, hord, run_phases_from_raise raises pre p rest hpre hp]

/-- Witness for the amended C1 theorem: a run whose Memory phase raises
executes exactly Startup and Memory and returns False. -/
theorem run_all_tests_failure_isolation_witness :
    run_all_tests true (fun p => decide (p = Phase.memory))
      = ([Phase.startup] ++ [Phase.memory], false) :=
  run_all_tests_failure_isolation.2.2 (fun p => decide (p = Phase.memory))
    [Phase.startup] Phase.memory
    [Phase.throughput, Phase.accuracy, Phase.concurrency, Phase.report]
    rfl (by decide) (by decide)

/-- C2: `stop_filter` is a no-op (raising nothing, being a total
function) when no handle is live, is idempotent, and on every exit path
of the phase template (missing executable, readiness timeout, raising
body, clean body) the final state holds no live handle and the launched
process - when `Popen` ran - was terminated exactly once; the startup
phase likewise performs exactly one termination per launch. -/
theorem process_leak_invariant :
    (∀ s, s.filter_process = none → stop_filter s = s) ∧
    (∀ s, stop_filter (stop_filter s) = stop_filter s) ∧
    (∀ exe_found becomes_ready body_raises pid s,
      s.filter_process = none →
      ((run_phase exe_found becomes_ready body_raises pid s).1.filter_process = none ∧
       (run_phase exe_found becomes_ready body_raises pid s).1.terminated
         = s.terminated ++ (if exe_found then [pid] else []))) ∧
    (∀ exe_found ready,
      (measure_startup_performance exe_found ready).1.terminations
        = (measure_startup_performance exe_found ready).1.launches) := by
  refine ⟨fun s h => by simp [stop_filter, h],
    fun s => ?_,
    fun exe_found becomes_ready body_raises pid s h => ?_,
    measure_startup_balanced⟩
  · obtain ⟨p, t⟩ := s
    cases p <;> simp [stop_filter]
  · cases exe_found <;> cases becomes_ready <;>
      simp [run_phase, start_filter, stop_filter, h]

/-- Witness for the C2 theorem: a phase whose readiness poll times out
and whose body raises still ends with no live handle and exactly one
termination of the launched process. -/
theorem process_leak_invariant_witness :
    (run_phase true false true 7 ⟨none, []⟩).1.filter_process = none ∧
    (run_phase true false true 7 ⟨none, []⟩).1.terminated
      = [] ++ (if true then [7] else []) :=
  process_leak_invariant.2.2.1 true false true 7 ⟨none, []⟩ rfl

/-- Probe oracle for the C3 counterexample: the probe of the first
fixture (`http://education.com`, expected allow) fails at the network
level; every other probe completes with an empty, unblocked body. -/
def cex_probe (url : String) : Option String :=
  if url = "http://education.com" then none else some ""

/-- C3, counterexample: under `cex_probe` the four buckets sum to 7 while
there are 8 fixtures, and the failed expected-allow fixture is in no
bucket (only the 2 other expected-allow fixtures land in correct-allow),
refuting both the partition and the failed-probe-counts-as-not-blocked
bucketing. -/
theorem accuracy_bucket_cex :
    bucket_sum (test_blocking_accuracy cex_probe).1 = 7 ∧
    test_cases.length = 8 ∧
    bucket_sum (test_blocking_accuracy cex_probe).1 ≠ test_cases.length ∧
    (test_blocking_accuracy cex_probe).1.correct_allows = 2 ∧
    (test_blocking_accuracy cex_probe).1.false_negatives = 5 := by
  decide

/-- C3, amended: every fixture whose probe completes lands in exactly one
bucket (each completed step bumps the bucket sum by exactly one), a
fixture whose probe fails at the network level lands in no bucket (the
except branch only logs), so the four bucket counts sum to the number of
fixtures whose probes completed; the accuracy percentage still divides
by the full fixture count 8. -/
theorem accuracy_bucket_partition :
    (∀ probe, bucket_sum (test_blocking_accuracy probe).1
        = (test_cases.filter (fun tc => (probe tc.url).isSome)).length) ∧
    (∀ probe acc tc, probe tc.url = none → accuracy_step probe acc tc = acc) ∧
    (∀ probe acc tc body, probe tc.url = some body →
      bucket_sum (accuracy_step probe acc tc) = bucket_sum acc + 1) ∧
    (∀ probe, (test_blocking_accuracy probe).2
        = (((test_blocking_accuracy probe).1.correct_blocks
            + (test_blocking_accuracy probe).1.correct_allows : ℚ)) / 8 * 100) := by
  refine ⟨fun probe => ?_, accuracy_step_failed, accuracy_step_completed,
    fun probe => ?_⟩
  · have h := bucket_sum_foldl probe test_cases ⟨0, 0, 0, 0⟩
    simpa [test_blocking_accuracy, bucket_sum] using h
  · simp [test_blocking_accuracy, test_cases]

/-- Witness for the amended C3 theorem: a fixture whose probe fails
leaves the bucket counters untouched. -/
theorem accuracy_bucket_partition_witness :
    accuracy_step (fun _ => none) ⟨0, 0, 0, 0⟩ ⟨"http://education.com", false, "Educational site"⟩
      = ⟨0, 0, 0, 0⟩ :=
  accuracy_bucket_partition.2.1 (fun _ => none) ⟨0, 0, 0, 0⟩
    ⟨"http://education.com", false, "Educational site"⟩ rfl

/-- C4: for every aggregate-results map, the computed score is exactly
the sum of the five threshold contributions (15 for startup < 2000 ms,
20 for memory < 50 MB, 20 for throughput > 10 req/s, 25 for accuracy
> 80 %, 20 for concurrent success > 90 %), the grade follows the fixed
score bands, and a missing metric contributes 0 without any error (the
function is total). -/
theorem score_and_grade_computation :
    (∀ r, calculate_performance_grade r = (specScore r, specGrade (specScore r))) ∧
    (∀ r : TestResults, startup_points { r with avg_startup_time := none } = 0) ∧
    (∀ r : TestResults, memory_points { r with avg_memory_mb := none } = 0) ∧
    (∀ r : TestResults, throughput_points { r with requests_per_second := none } = 0) ∧
    (∀ r : TestResults, accuracy_points { r with filter_accuracy := none } = 0) ∧
    (∀ r : TestResults, concurrent_points { r with concurrent_success_rate := none } = 0) :=
  ⟨calculate_performance_grade_eq, fun _ => rfl, fun _ => rfl, fun _ => rfl,
    fun _ => rfl, fun _ => rfl⟩

/-- C5: the score calculator is a pure function of the aggregate-results
record, and flipping any single metric from failing its threshold to
passing it, holding the other entries fixed, never decreases the score. -/
theorem score_purity_and_monotonicity :
    (∀ r1 r2 : TestResults, r1 = r2 →
      calculate_performance_grade r1 = calculate_performance_grade r2) ∧
    (∀ r m v, metricPasses m (getMetric r m) = false → metricPasses m v = true →
      (calculate_performance_grade r).1
        ≤ (calculate_performance_grade (setMetric r m v)).1) := by
  refine ⟨fun r1 r2 h => by rw [h], fun r m v hf hp => ?_⟩
  rw [performance_score_eq, performance_score_eq]
  exact specScore_mono_in_metric r m v hf hp

/-- Witness for the C5 theorem: adding a passing startup metric to an
all-missing record does not decrease the score. -/
theorem score_purity_and_monotonicity_witness :
    (calculate_performance_grade ⟨none, none, none, none, none⟩).1
      ≤ (calculate_performance_grade
          (setMetric ⟨none, none, none, none, none⟩ MetricKey.startup (some 0))).1 :=
  score_purity_and_monotonicity.2 ⟨none, none, none, none, none⟩
    MetricKey.startup (some 0) rfl (by decide)

/-- C6: a completed response is classified Blocked iff its body contains
both the product marker and the block marker (as genuine substring
occurrences); a completed response that is not Blocked is Allowed; a
network-level failure is Failed, and in both the throughput loop and the
accuracy loop a failed probe never increments a blocked counter (the
throughput loop still counts the request). -/
theorem blocked_classification_predicate :
    (∀ body : String, classify (some body) = Classification.Blocked ↔
      ((∃ u v, u ++ product_marker.data ++ v = body.data) ∧
       (∃ u v, u ++ block_marker.data ++ v = body.data))) ∧
    (∀ body : String, is_blocked body = false →
      classify (some body) = Classification.Allowed) ∧
    (classify none = Classification.Failed ∧
      Classification.Failed ≠ Classification.Blocked) ∧
    (∀ probe pt url s, probe s.idx url = none →
      ((throughputStep probe pt url s).blocked_count = s.blocked_count ∧
       (throughputStep probe pt url s).request_count = s.request_count + 1)) ∧
    (∀ probe acc tc, probe tc.url = none → accuracy_step probe acc tc = acc) := by
  refine ⟨fun body => ?_, fun body h => by simp [classify, h],
    ⟨rfl, by decide⟩, fun probe pt url s h => ?_, accuracy_step_failed⟩
  · have hb : classify (some body) = Classification.Blocked ↔ is_blocked body = true := by
      cases h : is_blocked body <;> simp [classify, h]
    rw [hb, is_blocked, Bool.and_eq_true, str_contains, str_contains,
      occursIn_iff, occursIn_iff]
  · constructor <;> simp [throughputStep, h]

/-- Witness for the C6 theorem: a body lacking the markers is classified
Allowed, and a failed probe in the throughput loop leaves the blocked
counter at 0 while counting the request. -/
theorem blocked_classification_predicate_witness :
    classify (some "hello") = Classification.Allowed ∧
    ((throughputStep (fun _ _ => none) (fun _ => ⟨1, Nat.one_pos⟩)
        "http://example.com" ⟨0, 0, 0, 0, []⟩).blocked_count = 0 ∧
     (throughputStep (fun _ _ => none) (fun _ => ⟨1, Nat.one_pos⟩)
        "http://example.com" ⟨0, 0, 0, 0, []⟩).request_count = 0 + 1) :=
  ⟨blocked_classification_predicate.2.1 "hello" (by decide),
    blocked_classification_predicate.2.2.2.1 (fun _ _ => none)
      (fun _ => ⟨1, Nat.one_pos⟩) "http://example.com" ⟨0, 0, 0, 0, []⟩ rfl⟩

/-- C7: running the throughput phase with configured duration 0 performs
no probe at all (total requests 0, blocked requests 0, blocked rate 0),
and the blocked-rate computation returns 0 whenever the total request
count is 0, so it never divides by zero. -/
theorem throughput_zero_duration :
    (∀ probe pt t0,
      ((measure_filtering_performance 0 probe pt t0).total_requests = 0 ∧
       (measure_filtering_performance 0 probe pt t0).blocked_requests = 0 ∧
       (measure_filtering_performance 0 probe pt t0).block_rate = 0)) ∧
    (∀ blocked, block_rate_calc blocked 0 = 0) := by
  refine ⟨fun probe pt t0 => ?_, fun blocked => by simp [block_rate_calc]⟩
  have hw : throughputWhile t0 probe pt ⟨t0, 0, 0, 0, []⟩
      = ⟨t0, 0, 0, 0, []⟩ := by
    rw [throughputWhile]
    simp
  refine ⟨?_, ?_, ?_⟩ <;> simp [measure_filtering_performance, hw, block_rate_calc]

/-- C8: when every startup cycle times out (the readiness oracle never
answers within the 10-second budget), each timed-out cycle appends
nothing to `startup_times` (a skipped data point, never a zero), all five
launches are balanced by five terminations, the phase records no startup
metrics, a results record without a startup metric contributes 0 startup
points to the score, and - since the phase body returns normally rather
than raising - the orchestrator still reaches the Memory phase. -/
theorem never_ready_startup_degradation :
    ∀ ready : Nat → Option ℚ, (∀ i, ready i = none) →
      (((measure_startup_performance true ready).1.startup_times = [] ∧
        (measure_startup_performance true ready).2 = none) ∧
       ((measure_startup_performance true ready).1.launches = 5 ∧
        (measure_startup_performance true ready).1.terminations = 5)) ∧
      (∀ acc i, (startup_cycle ready acc i).startup_times = acc.startup_times) ∧
      (∀ r : TestResults,
        (calculate_performance_grade { r with avg_startup_time := none }).1
          = memory_points r + throughput_points r + accuracy_points r +
              concurrent_points r) ∧
      (∀ raises : Phase → Bool, raises Phase.startup = false →
        Phase.memory ∈ (run_all_tests true raises).1) := by
  intro ready h
  refine ⟨⟨?_, ?_⟩, fun acc i => by simp [startup_cycle, h i],
    score_without_startup, run_all_tests_memory_mem⟩
  · simp [measure_startup_performance, startup_cycle, h]
  · simp [measure_startup_performance, startup_cycle, h]

/-- Witness for the C8 theorem: with the oracle that never becomes
ready, the startup phase records no metrics. -/
theorem never_ready_startup_degradation_witness :
    (measure_startup_performance true (fun _ => none)).2 = none ∧
    (measure_startup_performance true (fun _ => none)).1.startup_times = [] :=
  ⟨((never_ready_startup_degradation (fun _ => none) (fun _ => rfl)).1.1).2,
   ((never_ready_startup_degradation (fun _ => none) (fun _ => rfl)).1.1).1⟩

/-- C9, counterexample: `__init__` performs no validation, so the
configuration built from the CLI arguments `--duration 0 --connections
0` (accepted by argparse's plain `type=int`) violates the claimed
invariant duration > 0 ∧ concurrency ≥ 1. -/
theorem config_invariant_cex :
    ¬ (0 < (filter_performance_test_init 0 0).test_duration ∧
       1 ≤ (filter_performance_test_init 0 0).concurrent_connections) := by
  decide

/-- C9, amended: the default configuration (duration 30, connections 50)
satisfies duration > 0 and concurrency ≥ 1, but `__init__` stores
user-supplied values unvalidated, so the invariant is not enforced for
every configuration; whenever concurrency ≥ 1 the concurrent
success-rate computation divides by a nonzero number. -/
theorem config_invariant_defaults :
    (0 < (filter_performance_test_init default_test_duration
            default_concurrent_connections).test_duration ∧
     1 ≤ (filter_performance_test_init default_test_duration
            default_concurrent_connections).concurrent_connections) ∧
    (∀ d c, filter_performance_test_init d c = ⟨d, c⟩) ∧
    (∀ (s : Nat) (c : Int), 1 ≤ c →
      (((c : ℚ) ≠ 0) ∧
       concurrent_success_rate s c = ((s : ℚ) / (c : ℚ)) * 100)) := by
  refine ⟨by decide, fun d c => rfl, fun s c hc => ⟨?_, rfl⟩⟩
  have hpos : (0 : ℚ) < (c : ℚ) := by
    exact_mod_cast lt_of_lt_of_le Int.zero_lt_one hc
  exact ne_of_gt hpos

/-- Witness for the amended C9 theorem: with the default 50 connections
the success-rate divisor is nonzero. -/
theorem config_invariant_defaults_witness :
    (((50 : Int) : ℚ) ≠ 0) ∧
    concurrent_success_rate 10 50 = (((10 : Nat) : ℚ) / ((50 : Int) : ℚ)) * 100 :=
  config_invariant_defaults.2.2 10 50 (by decide)

/-- C10: whenever the module-level imports succeeded (the program
started at all), the pre-flight `check_dependencies` returns True - the
re-import of requests cannot fail and psutil absence never fails the
check - so the DependencyMissing abort path is unreachable: the run
always reaches the Startup phase. -/
theorem preflight_always_passes :
    ∀ (env : PythonEnv) (raises : Phase → Bool),
      module_import_ok env = true →
      (check_dependencies env = true ∧
       (run_all_tests (check_dependencies env) raises).1 ≠ [] ∧
       Phase.startup ∈ (run_all_tests (check_dependencies env) raises).1) := by
  intro env raises h
  have hc : check_dependencies env = true := h
  rw [hc]
  exact ⟨rfl, (run_all_tests_startup_mem raises).2, (run_all_tests_startup_mem raises).1⟩

/-- Witness for the C10 theorem: in an environment where both libraries
import, the check passes and the Startup phase is reached even when every
phase body would raise. -/
theorem preflight_always_passes_witness :
    check_dependencies ⟨true, false⟩ = true ∧
    (run_all_tests (check_dependencies ⟨true, false⟩) (fun _ => true)).1 ≠ [] ∧
    Phase.startup ∈ (run_all_tests (check_dependencies ⟨true, false⟩) (fun _ => true)).1 :=
  preflight_always_passes ⟨true, false⟩ (fun _ => true) rfl
